import Mathlib

set_option maxRecDepth 8000
set_option maxHeartbeats 1000000
set_option linter.unusedVariables false

/-!
Verification development for the `daily-news-emailer` repository
(`daily_news_emailer.py` and `huggingface_summarizer.py`).

Python strings are modelled as `List Char`.  Network and SMTP effects are
modelled by oracles: a call that can raise is represented by an
`Except PyErr _` value supplied by the oracle, and the Python `try/except`
blocks of the source become `match` on that value.  Fallible Python
functions that `return None` on failure are modelled with `Option`.
-/

/-- Python exception values that the program's `except` blocks can observe. -/
inductive PyErr where
  /-- the `requests.HTTPError` raised by `raise_for_status()` on a 4xx/5xx
  (non-2xx) response -/
  | httpError (code : Nat)
  /-- connection/timeout transport errors -/
  | transportError
  /-- missing API credential (e.g. the `OpenAI` client raising when
  `HF_KEY` is absent) -/
  | missingCredential
  /-- a `KeyError` or JSON decoding error while reading a response body -/
  | badPayload
  /-- a parse failure raised while fetching/parsing a feed -/
  | parseError
  /-- an `smtplib.SMTPAuthenticationError` -/
  | authError
  /-- a `TypeError` or `AttributeError` from building a MIME part out of `None` -/
  | typeError
  /-- a `NameError` (e.g. the undefined `result` at
  `huggingface_summarizer.py:69`) -/
  | nameError
deriving DecidableEq

/-- The whitespace test used by Python's `str.strip()` (ASCII range). -/
def pyWhitespace (c : Char) : Bool :=
  c = ' ' || c = '\t' || c = '\n' || c = '\x0d' || c = '\x0b' || c = '\x0c'

/-- Python `s.strip()`: drop whitespace from both ends. -/
def pstrip (s : List Char) : List Char :=
  ((s.dropWhile pyWhitespace).reverse.dropWhile pyWhitespace).reverse

/-- Python `s.replace(p, "", 1)`: remove the first occurrence of `p`
from `s` (no change when `p` does not occur). -/
def replaceFirst (p : List Char) : List Char → List Char
  | [] => []
  | c :: t =>
    if p.isPrefixOf (c :: t) then (c :: t).drop p.length
    else c :: replaceFirst p t

/-- Everything after the first occurrence of `p` in `s`
(`none` when `p` does not occur). -/
def dropThroughFirst (p : List Char) : List Char → Option (List Char)
  | [] => if p.isPrefixOf ([] : List Char) then some [] else none
  | c :: t =>
    if p.isPrefixOf (c :: t) then some ((c :: t).drop p.length)
    else dropThroughFirst p t

/-- Python `s.rsplit(p, 1)[0]`: the part of `s` before the last occurrence
of `p`, or `s` itself when `p` does not occur.  The last occurrence of `p`
in `s` is the first occurrence of `p.reverse` in `s.reverse`. -/
def rsplitHead (p s : List Char) : List Char :=
  match dropThroughFirst p.reverse s.reverse with
  | some r => r.reverse
  | none => s

/-- Python substring test `p in s`. -/
def containsSub (p : List Char) : List Char → Bool
  | [] => p.isPrefixOf ([] : List Char)
  | c :: t => p.isPrefixOf (c :: t) || containsSub p t

/-- The opening code-fence marker `"```html"`. -/
def fenceHtml : List Char := "```html".data

/-- The code-fence marker `"```"`. -/
def fence : List Char := "```".data

/-- The fence-stripping post-processing block shared by
`daily_news_emailer.py:165-173` and `huggingface_summarizer.py:58-66`
(and repeated at `huggingface_summarizer.py:72-80`):

```
if html_content.startswith("```html"): html_content = html_content.replace("```html", "", 1)
if html_content.startswith("```"):     html_content = html_content.replace("```", "", 1)
if html_content.endswith("```"):       html_content = html_content.rsplit("```", 1)[0]
html_content = html_content.strip()
```
-/
def fenceCore (s : List Char) : List Char :=
  let s1 := if fenceHtml.isPrefixOf s then replaceFirst fenceHtml s else s
  let s2 := if fence.isPrefixOf s1 then replaceFirst fence s1 else s1
  if fence.isSuffixOf s2 then rsplitHead fence s2 else s2

/-- The fence removal of `fenceCore` followed by the final `strip()`. -/
def stripFences (s : List Char) : List Char :=
  pstrip (fenceCore s)

/-- The backtick character. -/
def btick : Char := Char.ofNat 96

/-- The four characters `html` that distinguish the two fence markers. -/
def htmlTag : List Char := "html".data

/-- Post-processing of the primary (Claude) provider's raw response text
(`daily_news_emailer.py:165-173`): one pass of fence stripping. -/
def claudePost (raw : List Char) : List Char := stripFences raw

/-- Post-processing of the free-tier (Hugging Face) provider's raw response
text (`huggingface_summarizer.py:58-83`): one pass of fence stripping,
then the emptiness check at line 68 (which ends in returning `None`), then
a second identical pass of fence stripping. -/
def hfPost (raw : List Char) : Option (List Char) :=
  if stripFences raw = [] then none else some (stripFences (stripFences raw))

/-- The normalized article record produced by both collectors.  The nested
Python dict `{"name": ...}` under `"source"` is flattened to `sourceName`. -/
structure Article where
  title : List Char
  description : List Char
  url : List Char
  sourceName : List Char
  publishedAt : List Char
  author : List Char
deriving DecidableEq

/-- One feed entry as seen through `entry.get(...)`:
`none` models an absent key. -/
structure RssEntry where
  title : Option (List Char)
  summary : Option (List Char)
  description : Option (List Char)
  link : Option (List Char)
  published : Option (List Char)
  author : Option (List Char)
deriving DecidableEq

/-- A parsed feed: `feed.feed.get("title", ...)` and `feed.entries`. -/
structure Feed where
  title : Option (List Char)
  entries : List RssEntry
deriving DecidableEq

/-- Lines 49-56 of `daily_news_emailer.py`: map one feed entry to the article dict. -/
def rssEntryToArticle (f : Feed) (e : RssEntry) : Article :=
  { title := e.title.getD "Untitled".data
  , description := e.summary.getD (e.description.getD [])
  , url := e.link.getD []
  , sourceName := f.title.getD "RSS Feed".data
  , publishedAt := e.published.getD []
  , author := e.author.getD "Unknown".data }

/-- The articles contributed by one successfully parsed feed. -/
def feedArticles (f : Feed) : List Article :=
  f.entries.map (rssEntryToArticle f)

/-- The configured feed list `RSS_FEEDS` (`daily_news_emailer.py:33-39`).
The last element is the concatenation of two URLs: the source has no comma
between the two string literals, so Python joins them into one string and
the list has four elements. -/
def RSS_FEEDS : List (List Char) :=
  [ "https://rss.nytimes.com/services/xml/rss/nyt/US.xml".data
  , "https://rss.nytimes.com/services/xml/rss/nyt/Technology.xml".data
  , "https://feeds.content.dowjones.io/public/rss/WSJcomUSBusiness".data
  , "https://feeds.content.dowjones.io/public/rss/RSSMarketsMain".data
      ++ "https://feeds.npr.org/1004/rss.xml".data ]

/-- A log record: level plus which message template was emitted. -/
inductive LogMsg where
  | rssComplete
  | rssError (e : PyErr)
  | apiKeyMissing
  | fetchingEndpoints
  | fetchedCount (n : Nat)
  | noResults (status : Option (List Char))
  | apiMessage (m : List Char)
  | totalCollected (n : Nat)
  | apiError (e : PyErr)
  | summarySuccess
  | llmError (e : PyErr)
  | hfRespType
  | hfHttpError (e : PyErr)
  | hfError (e : PyErr)
  | hfSuccess
  | fallbackWarning
  | emailSent
  | emailError (e : PyErr)
deriving DecidableEq

inductive LogEntry where
  | info (m : LogMsg)
  | warning (m : LogMsg)
  | error (m : LogMsg)
deriving DecidableEq

/-- The loop body of `fetch_news_from_raw_rss` (`daily_news_emailer.py:44-59`).
The `try` block encloses the whole `for feed_url in RSS_FEEDS` loop, so an
exception raised while parsing one feed leaves the loop: the `except` arm
logs it and the articles accumulated so far are returned (the `articles`
list survives, being defined before the `try`).  Feeds after the failing
one are never visited. -/
def rssLoop (acc : List Article) : List (Except PyErr Feed) → List Article × List LogEntry
  | [] => (acc, [])
  | .error e :: _ => (acc, [.error (.rssError e)])
  | .ok f :: rest =>
    let nxt := rssLoop (acc ++ feedArticles f) rest
    (nxt.1, .info .rssComplete :: nxt.2)

/-- Model of `fetch_news_from_raw_rss` (`daily_news_emailer.py:41-60`).
The oracle gives the outcome of `feedparser.parse(feed_url)` for each URL. -/
def fetch_news_from_raw_rss (oracle : List Char → Except PyErr Feed) :
    List Article × List LogEntry :=
  rssLoop [] (RSS_FEEDS.map oracle)

/-- One item of a news-API `results` array, through `item.get(...)`. -/
structure ApiItem where
  title : Option (List Char)
  description : Option (List Char)
  link : Option (List Char)
  source_id : Option (List Char)
  pubDate : Option (List Char)
  creator : Option (List (List Char))
deriving DecidableEq

/-- A decoded news-API JSON response: `status`, the optional `results`
array (`'results' in data`), and the optional `message`. -/
structure ApiResponse where
  status : Option (List Char)
  results : Option (List ApiItem)
  message : Option (List Char)
deriving DecidableEq

/-- Lines 92-99 of `daily_news_emailer.py`: map one result item to the article dict.
`item.get("creator", ["Unknown"])[0] if item.get("creator") else "Unknown"`:
an absent or empty (falsy) `creator` list yields `"Unknown"`, otherwise the
first element. -/
def apiItemToArticle (it : ApiItem) : Article :=
  { title := it.title.getD "Untitled".data
  , description := it.description.getD []
  , url := it.link.getD []
  , sourceName := it.source_id.getD "Unknown".data
  , publishedAt := it.pubDate.getD []
  , author := match it.creator with
      | some (c :: _) => c
      | _ => "Unknown".data }

/-- The test `data.get('status') == 'success' and 'results' in data`
(`daily_news_emailer.py:86`). -/
def apiSuccess (r : ApiResponse) : Bool :=
  r.status = some "success".data && r.results.isSome

/-- The articles one response contributes: all mapped result items on a
success status, none otherwise. -/
def apiContribution (r : ApiResponse) : List Article :=
  if apiSuccess r then (r.results.getD []).map apiItemToArticle else []

/-- The loop body of `fetch_news_from_news_api`
(`daily_news_emailer.py:80-103`).  A non-success status logs an error (and
the API `message` when present) and the loop continues with the next
endpoint; an exception leaves the loop (the `try` encloses it) and the
result's boolean marks that the `except` arm ran. -/
def apiLoop (acc : List Article) :
    List (Except PyErr ApiResponse) → List Article × List LogEntry × Bool
  | [] => (acc, [], false)
  | .error e :: _ => (acc, [.error (.apiError e)], true)
  | .ok r :: rest =>
    if apiSuccess r then
      let nxt := apiLoop (acc ++ (r.results.getD []).map apiItemToArticle) rest
      (nxt.1, .info (.fetchedCount (r.results.getD []).length) :: nxt.2.1, nxt.2.2)
    else
      let nxt := apiLoop acc rest
      (nxt.1,
       .error (.noResults r.status)
         :: ((match r.message with
              | some m => [LogEntry.error (.apiMessage m)]
              | none => []) ++ nxt.2.1),
       nxt.2.2)

/-- The two query URLs of `link_list` (`daily_news_emailer.py:73-76`),
with the API key interpolated. -/
def newsLinks (key : List Char) : List (List Char) :=
  [ "https://newsdata.io/api/1/market?apikey=".data ++ key
      ++ "&q=market&language=en&domainurl=wsj.com,economist.com,bloomberg.com,ft.com,cnbc.com&sort=relevancy".data
  , "https://newsdata.io/api/1/latest?apikey=".data ++ key
      ++ "&q=politics&language=en&domainurl=nytimes.com,wsj.com,theguardian.com,aljazeera.com&sort=relevancy".data ]

/-- Model of `fetch_news_from_news_api` (`daily_news_emailer.py:62-110`).  A missing
`NEWSDATAIO_API_KEY` logs and returns the empty list; otherwise the two
endpoints are queried in order, and the `Total articles collected` info log
is only reached when no exception interrupted the loop. -/
def fetch_news_from_news_api (key : Option (List Char))
    (oracle : List Char → Except PyErr ApiResponse) :
    List Article × List LogEntry :=
  match key with
  | none => ([], [.error .apiKeyMissing])
  | some k =>
    let res := apiLoop [] ((newsLinks k).map oracle)
    (res.1,
     .info .fetchingEndpoints
       :: (res.2.1 ++ if res.2.2 then [] else [LogEntry.info (.totalCollected res.1.length)]))

/-- Python `repr` of a string that contains no quote, backslash or
non-printable character: the text wrapped in single quotes.  The program's
article fields are modelled under this assumption. -/
def pyQuote (s : List Char) : List Char := "\x27".data ++ s ++ "\x27".data

/-- Python `repr` of one article dict, with the keys in the insertion
order used by both collectors
(`title`, `description`, `url`, `source`, `publishedAt`, `author`). -/
def pyReprArticle (a : Article) : List Char :=
  "\x7b\x27title\x27: ".data ++ pyQuote a.title
    ++ ", \x27description\x27: ".data ++ pyQuote a.description
    ++ ", \x27url\x27: ".data ++ pyQuote a.url
    ++ ", \x27source\x27: \x7b\x27name\x27: ".data ++ pyQuote a.sourceName
    ++ "\x7d, \x27publishedAt\x27: ".data ++ pyQuote a.publishedAt
    ++ ", \x27author\x27: ".data ++ pyQuote a.author
    ++ "\x7d".data

/-- Comma separator used by Python's list `repr`. -/
def commaSep : List (List Char) → List Char
  | [] => []
  | [x] => x
  | x :: y :: t => x ++ ", ".data ++ commaSep (y :: t)

/-- Python `repr` of the article list, which is what the f-string
`{articles}` interpolates in both prompt literals (both prompts embed the
raw list `articles`, not the `articles_text` variable, which is computed
and then unused in both files). -/
def pyReprArticles (arts : List Article) : List Char :=
  "[".data ++ commaSep (arts.map pyReprArticle) ++ "]".data

/-- The prompt text before the `{articles}` interpolation — identical in
`daily_news_emailer.py:125-127` and `huggingface_summarizer.py:28-30`. -/
def promptPre : List Char :=
  "Create a concise, engaging daily news summary email.\n\n            Articles:\n            ".data

/-- The prompt text between `{articles}` and the instruction-3 line —
identical in both files. -/
def promptMid : List Char :=
  "\n\n            Format as an HTML email with:\n            1. No introduction or conclusion.\n            2. Keep the title emoji free  \n            ".data

/-- Instruction 3 of the Claude prompt (`daily_news_emailer.py:133`). -/
def claudeLine3 : List Char :=
  "3. Pick at most 15 key stories grouped by theme. Make no more than 4 themes. ".data

/-- Instruction 3 of the Hugging Face prompt
(`huggingface_summarizer.py:36`). -/
def hfLine3 : List Char :=
  "3. Pick at most 10 key stories grouped by theme. ".data

/-- The prompt text after the instruction-3 line — identical in both
files. -/
def promptTail : List Char :=
  "\n            4. Make sure that politics and markets are discussed. \n            4. For each story: headline, 2-4 sentence summary, link\n            5. Professional but friendly tone\n            \n            Keep under 500 words.".data

/-- The prompt built by `generate_summary_with_claude`
(`daily_news_emailer.py:125-138`). -/
def claudePrompt (arts : List Article) : List Char :=
  promptPre ++ (pyReprArticles arts ++ (promptMid ++ (claudeLine3 ++ promptTail)))

/-- The prompt built by `generate_summary_with_huggingface`
(`huggingface_summarizer.py:28-41`). -/
def hfPrompt (arts : List Article) : List Char :=
  promptPre ++ (pyReprArticles arts ++ (promptMid ++ (hfLine3 ++ promptTail)))

/-- Model of `generate_summary_with_claude` (`daily_news_emailer.py:112-179`).
The oracle maps the prompt to the outcome of the whole HTTPS exchange up
to `result["content"][0]["text"]`; any exception in the `try` block
(missing key surfacing as an auth failure, `raise_for_status` on non-2xx,
transport errors, body decoding) is the `.error` case.  The function
catches every exception, logs it and falls off the end, i.e. returns
`None`. -/
def generate_summary_with_claude (arts : List Article)
    (oracle : List Char → Except PyErr (List Char)) :
    Option (List Char) × List LogEntry :=
  match oracle (claudePrompt arts) with
  | .error e => (none, [.error (.llmError e)])
  | .ok raw => (some (claudePost raw), [.info .summarySuccess])

/-- Model of `generate_summary_with_huggingface` (`huggingface_summarizer.py:15-91`).
On a raw response whose first fence-stripping pass leaves the empty
string, line 69 references the undefined name `result`, so the `NameError`
is caught by the outer `except` and the function returns `None`; on a
non-empty result the stripping block runs a second time. -/
def generate_summary_with_huggingface (arts : List Article)
    (oracle : List Char → Except PyErr (List Char)) :
    Option (List Char) × List LogEntry :=
  match oracle (hfPrompt arts) with
  | .error (.httpError c) =>
      (none, [.error (.hfHttpError (.httpError c))])
  | .error e => (none, [.error (.hfError e)])
  | .ok raw =>
    match hfPost raw with
    | none => (none, [.info .hfRespType, .error (.hfError .nameError)])
    | some d => (some d, [.info .hfRespType, .info .hfSuccess])

/-- Outcomes of the three steps of the SMTP session in `send_email`
(`daily_news_emailer.py:199-204`): `starttls`, `login`, `sendmail`. -/
structure SmtpOracle where
  starttls : Except PyErr Unit
  login : Except PyErr Unit
  send : Except PyErr Unit

/-- Model of `send_email` (`daily_news_emailer.py:181-210`).  The message build and
the SMTP session live inside one `try`; any failure is logged with its
cause and turned into the return value `False`.  A `None` body (possible,
since `main` performs no emptiness check) makes `MIMEText` raise inside
the `try`, which is also a `False` return. -/
def send_email (subject : List Char) (body : Option (List Char))
    (o : SmtpOracle) : Bool × List LogEntry :=
  match body with
  | none => (false, [.error (.emailError .typeError)])
  | some _ =>
    match o.starttls with
    | .error e => (false, [.error (.emailError e)])
    | .ok _ =>
      match o.login with
      | .error e => (false, [.error (.emailError e)])
      | .ok _ =>
        match o.send with
        | .error e => (false, [.error (.emailError e)])
        | .ok _ => (true, [.info .emailSent])

/-- The test `if not summary or "Error" in summary` (`daily_news_emailer.py:218`):
`not None` and `not ""` are truthy, and `or` short-circuits before the
substring test. -/
def needsFallback : Option (List Char) → Bool
  | none => true
  | some s => s.isEmpty || containsSub "Error".data s

/-- The observable calls `main` makes, in order. -/
inductive Event where
  | callNewsApi
  | callRss
  | callHF
  | callClaude
  | callSendEmail
deriving DecidableEq

/-- All external nondeterminism one run of `main` can observe. -/
structure World where
  /-- the value of `datetime.now().strftime("%d/%m/%Y")` -/
  dateStr : List Char
  /-- presence/value of `NEWSDATAIO_API_KEY` -/
  newsKey : Option (List Char)
  apiOracle : List Char → Except PyErr ApiResponse
  rssOracle : List Char → Except PyErr Feed
  hfOracle : List Char → Except PyErr (List Char)
  claudeOracle : List Char → Except PyErr (List Char)
  smtp : SmtpOracle

structure MainResult where
  trace : List Event
  articles : List Article
  emailBody : Option (List Char)
  emailSuccess : Bool

/-- The digest the free-tier provider hands to `main`. -/
def hfDigestOf (w : World) : Option (List Char) :=
  (generate_summary_with_huggingface
    (fetch_news_from_news_api w.newsKey w.apiOracle).1 w.hfOracle).1

/-- The digest the primary provider hands to `main` when invoked. -/
def claudeDigestOf (w : World) : Option (List Char) :=
  (generate_summary_with_claude
    (fetch_news_from_news_api w.newsKey w.apiOracle).1 w.claudeOracle).1

/-- Model of `main` (`daily_news_emailer.py:213-224`): fetch from the news API
(`fetch_news_from_raw_rss` is defined in the file but never called here),
summarize with Hugging Face, fall back to Claude when
`not summary or "Error" in summary`, then send the email. -/
def pymain (w : World) : MainResult :=
  let articles := (fetch_news_from_news_api w.newsKey w.apiOracle).1
  let summary :=
    if needsFallback (hfDigestOf w) then claudeDigestOf w else hfDigestOf w
  { trace := [Event.callNewsApi, Event.callHF]
      ++ (if needsFallback (hfDigestOf w) then [Event.callClaude] else [])
      ++ [Event.callSendEmail]
  , articles := articles
  , emailBody := summary
  , emailSuccess :=
      (send_email ("Daily News for ".data ++ w.dateStr) summary w.smtp).1 }

/-! ### Sample data for concrete runs -/

/-- A feed entry carrying only a title and a link. -/
def sampleEntryA : RssEntry := ⟨some "a1".data, none, none, some "u1".data, none, none⟩

def sampleEntryB : RssEntry := ⟨some "b1".data, none, none, some "u2".data, none, none⟩

def feedA : Feed := ⟨some "A".data, [sampleEntryA]⟩

def feedB : Feed := ⟨some "B".data, [sampleEntryB]⟩

/-- The article `feedA` yields. -/
def artA : Article := ⟨"a1".data, [], "u1".data, "A".data, [], "Unknown".data⟩

/-- The article `feedB` yields. -/
def artB : Article := ⟨"b1".data, [], "u2".data, "B".data, [], "Unknown".data⟩

/-- A feed oracle: the first configured feed parses to `feedA`, the second
raises, the remaining ones parse to `feedB`. -/
def cexRssOracle : List Char → Except PyErr Feed := fun u =>
  if u = "https://rss.nytimes.com/services/xml/rss/nyt/US.xml".data then
    Except.ok feedA
  else if u = "https://rss.nytimes.com/services/xml/rss/nyt/Technology.xml".data then
    Except.error PyErr.parseError
  else Except.ok feedB

def apiItemX : ApiItem :=
  ⟨some "x1".data, some "d1".data, some "l1".data, some "s1".data, some "p1".data, none⟩

/-- The article `apiItemX` maps to. -/
def artX : Article := ⟨"x1".data, "d1".data, "l1".data, "s1".data, "p1".data, "Unknown".data⟩

def goodResp : ApiResponse := ⟨some "success".data, some [apiItemX], none⟩

def badResp : ApiResponse := ⟨some "error".data, none, some "quota".data⟩

def trivialSmtp : SmtpOracle := ⟨Except.ok (), Except.ok (), Except.ok ()⟩

/-- A base world: no news key, failing collectors, failing free-tier
provider, succeeding primary provider and SMTP relay. -/
def worldBase : World :=
  { dateStr := "01/01/2026".data
  , newsKey := none
  , apiOracle := fun _ => Except.error PyErr.transportError
  , rssOracle := fun _ => Except.error PyErr.parseError
  , hfOracle := fun _ => Except.error PyErr.transportError
  , claudeOracle := fun _ => Except.ok "<p>c</p>".data
  , smtp := trivialSmtp }

/-- A world where the free-tier provider returns `" ``` "`, which strips
to the empty digest. -/
def worldHfEmpty : World := { worldBase with hfOracle := fun _ => Except.ok " ``` ".data }

/-- A world where the free-tier provider returns a well-formed digest that
merely mentions the word `Error`. -/
def worldHfError : World :=
  { worldBase with hfOracle := fun _ => Except.ok "<p>Error rates fell</p>".data }

/-- A world where the free-tier provider returns a clean digest. -/
def worldHfGood : World := { worldBase with hfOracle := fun _ => Except.ok "<p>ok</p>".data }

/-- A world with a news key, both API queries succeeding, and an RSS
oracle that would yield `artA`. -/
def worldC5 : World :=
  { worldBase with
    newsKey := some "K".data
  , apiOracle := fun _ => Except.ok goodResp
  , rssOracle := cexRssOracle }

/-! ### List infrastructure -/

theorem pre_false {p s : List Char} (h : ¬ p <+: s) : p.isPrefixOf s = false :=
  Bool.eq_false_iff.mpr (fun hb => h ( List.isPrefixOf_iff_prefix.mp hb))

theorem suf_false {p s : List Char} (h : ¬ p <:+ s) : p.isSuffixOf s = false :=
  Bool.eq_false_iff.mpr (fun hb => h (List.isSuffixOf_iff_suffix.mp hb))

theorem pre_of_false {p s : List Char} (h : p.isPrefixOf s = false) : ¬ p <+: s :=
  fun hp => by simp [ List.isPrefixOf_iff_prefix.mpr hp] at h

theorem pre_split :
    ∀ (t p u : List Char), p <+: (t ++ u) → p <+: t ∨ ∃ q, p = t ++ q ∧ q <+: u := by
  intro t
  induction t with
  | nil =>
    intro p u h
    right
    exact ⟨p, by simp, by simpa using h⟩
  | cons a t ih =>
    intro p u h
    cases p with
    | nil => left; exact List.nil_prefix
    | cons b p' =>
      rw [List.cons_append] at h
      obtain ⟨hb, h'⟩ := List.cons_prefix_cons.mp h
      subst hb
      rcases ih p' u h' with h1 | ⟨q, hq, hq2⟩
      · left; exact List.cons_prefix_cons.mpr ⟨rfl, h1⟩
      · right; exact ⟨q, by rw [List.cons_append, hq], hq2⟩

theorem replaceFirst_of_pre {p s : List Char} (h : p.isPrefixOf s = true) :
    replaceFirst p s = s.drop p.length := by
  cases s with
  | nil =>
    have hp : p = [] := List.prefix_nil.mp ( List.isPrefixOf_iff_prefix.mp h)
    subst hp
    rfl
  | cons c t => simp [replaceFirst, h]

theorem dropThroughFirst_of_pre {p s : List Char} (h : p.isPrefixOf s = true) :
    dropThroughFirst p s = some (s.drop p.length) := by
  cases s with
  | nil => simp [dropThroughFirst, h]
  | cons c t => simp [dropThroughFirst, h]

theorem rsplit_eat (t : List Char) : rsplitHead fence (t ++ fence) = t := by
  have h1 : fence.reverse = fence := by decide
  have hp : fence.isPrefixOf (fence ++ t.reverse) = true :=
    List.isPrefixOf_iff_prefix.mpr (List.prefix_append _ _)
  simp [rsplitHead, List.reverse_append, h1, dropThroughFirst_of_pre hp, List.drop_left]

theorem fence_chars : fence = [btick, btick, btick] := by decide

theorem fenceHtml_decomp : fenceHtml = fence ++ htmlTag := by decide

theorem fence_pre_false {t : List Char} (hb : btick ∉ t) : fence.isPrefixOf t = false :=
  pre_false (fun h => hb (h.subset (by decide)))

theorem fenceHtml_pre_false {t : List Char} (hb : btick ∉ t) :
    fenceHtml.isPrefixOf t = false :=
  pre_false (fun h => hb (h.subset (by decide)))

theorem fence_suf_false {t : List Char} (hb : btick ∉ t) : fence.isSuffixOf t = false :=
  suf_false (fun h => hb (h.subset (by decide)))

theorem mem_fence_eq {c : Char} (h : c ∈ fence) : c = btick := by
  rw [fence_chars] at h
  simpa using h

theorem htmlTag_not_pre_tail {t : List Char} (hb : btick ∉ t)
    (hh : htmlTag.isPrefixOf t = false) : ¬ htmlTag <+: (t ++ fence) := by
  intro h
  rcases pre_split t htmlTag fence h with h1 | ⟨q, hq, hq2⟩
  · exact pre_of_false hh h1
  · cases q with
    | nil =>
      have ht : t = htmlTag := by simpa using hq.symm
      exact pre_of_false hh (ht ▸ List.prefix_refl t)
    | cons c q' =>
      have hc : c = btick := mem_fence_eq (hq2.subset (List.mem_cons_self c q'))
      have hmem : c ∈ htmlTag := by
        rw [hq]
        exact List.mem_append_right t (List.mem_cons_self _ _)
      rw [hc] at hmem
      exact absurd hmem (by decide)

theorem fence_pre_tail_false {t : List Char} (hb : btick ∉ t) (ht : t ≠ []) :
    fence.isPrefixOf (t ++ fence) = false := by
  apply pre_false
  intro h
  rcases pre_split t fence fence h with h1 | ⟨q, hq, hq2⟩
  · exact hb (h1.subset (by decide))
  · cases t with
    | nil => exact ht rfl
    | cons c t' =>
      have hpt : (c :: t') <+: fence := ⟨q, hq.symm⟩
      have : c ∈ fence := hpt.subset (List.mem_cons_self c t')
      exact hb (by rw [mem_fence_eq this]; exact List.mem_cons_self _ _)

theorem fenceHtml_pre_wrap_false {t : List Char} (hb : btick ∉ t)
    (hh : htmlTag.isPrefixOf t = false) :
    fenceHtml.isPrefixOf (fence ++ (t ++ fence)) = false := by
  apply pre_false
  intro h
  rw [fenceHtml_decomp] at h
  exact htmlTag_not_pre_tail hb hh ((List.prefix_append_right_inj fence).mp h)

theorem dw_len (p : Char → Bool) (l : List Char) :
    (l.dropWhile p).length ≤ l.length := by
  induction l with
  | nil => simp
  | cons a t ih =>
    by_cases h : p a = true
    · rw [List.dropWhile_cons, if_pos h]
      exact Nat.le_trans ih (Nat.le_succ _)
    · rw [List.dropWhile_cons, if_neg (by simp [h])]

theorem dw_idem (p : Char → Bool) (l : List Char) :
    (l.dropWhile p).dropWhile p = l.dropWhile p := by
  induction l with
  | nil => rfl
  | cons a t ih =>
    by_cases h : p a = true
    · rw [List.dropWhile_cons, if_pos h, ih]
    · rw [List.dropWhile_cons, if_neg (by simp [h]), List.dropWhile_cons,
        if_neg (by simp [h])]

theorem dw_no (p : Char → Bool) (u : List Char) (h : u.dropWhile p = u)
    (w : List Char) (hw : w <+: u) : w.dropWhile p = w := by
  cases w with
  | nil => rfl
  | cons b w' =>
    cases u with
    | nil =>
      have := List.prefix_nil.mp hw
      simp at this
    | cons a u' =>
      have hb : b = a := (List.cons_prefix_cons.mp hw).1
      have hpa : p a = false := by
        by_cases hp : p a = true
        · rw [List.dropWhile_cons, if_pos hp] at h
          have hlen := dw_len p u'
          rw [h] at hlen
          simp at hlen
        · exact Bool.eq_false_iff.mpr hp
      rw [List.dropWhile_cons, hb, if_neg (by simp [hpa])]

theorem dwr_of_fix {p : Char → Bool} {u : List Char} (h : u.dropWhile p = u) :
    ((u.reverse.dropWhile p).reverse).dropWhile p = (u.reverse.dropWhile p).reverse := by
  apply dw_no p u h
  have h2 := List.reverse_prefix.mpr (List.dropWhile_suffix p (l := u.reverse))
  rwa [List.reverse_reverse] at h2

theorem pstrip_idem (s : List Char) : pstrip (pstrip s) = pstrip s := by
  unfold pstrip
  have h1 : (s.dropWhile pyWhitespace).dropWhile pyWhitespace
      = s.dropWhile pyWhitespace := dw_idem _ _
  rw [dwr_of_fix h1, List.reverse_reverse, dw_idem]

theorem stripFences_pstrip (s : List Char) :
    pstrip (stripFences s) = stripFences s :=
  pstrip_idem (fenceCore s)

/-! ### Fence-stripping facts -/

theorem strip_id {t : List Char} (hb : btick ∉ t) (hs : pstrip t = t) :
    stripFences t = t := by
  have hc : fenceCore t = t := by
    simp [fenceCore, fenceHtml_pre_false hb, fence_pre_false hb, fence_suf_false hb]
  rw [stripFences, hc, hs]

theorem strip_wrap_html {t : List Char} (hb : btick ∉ t) (hs : pstrip t = t) :
    stripFences (fenceHtml ++ (t ++ fence)) = t := by
  by_cases ht : t = []
  · subst ht; decide
  · have h1 : fenceHtml.isPrefixOf (fenceHtml ++ (t ++ fence)) = true :=
      List.isPrefixOf_iff_prefix.mpr (List.prefix_append _ _)
    have h2 : replaceFirst fenceHtml (fenceHtml ++ (t ++ fence)) = t ++ fence := by
      rw [replaceFirst_of_pre h1]; exact List.drop_left _ _
    have h3 : fence.isPrefixOf (t ++ fence) = false := fence_pre_tail_false hb ht
    have h4 : fence.isSuffixOf (t ++ fence) = true :=
      List.isSuffixOf_iff_suffix.mpr (List.suffix_append _ _)
    have hc : fenceCore (fenceHtml ++ (t ++ fence)) = t := by
      simp [fenceCore, h1, h2, h3, h4, rsplit_eat]
    rw [stripFences, hc, hs]

theorem strip_wrap_plain {t : List Char} (hb : btick ∉ t) (hs : pstrip t = t)
    (hh : htmlTag.isPrefixOf t = false) :
    stripFences (fence ++ (t ++ fence)) = t := by
  have h1 : fenceHtml.isPrefixOf (fence ++ (t ++ fence)) = false :=
    fenceHtml_pre_wrap_false hb hh
  have h2 : fence.isPrefixOf (fence ++ (t ++ fence)) = true :=
    List.isPrefixOf_iff_prefix.mpr (List.prefix_append _ _)
  have h3 : replaceFirst fence (fence ++ (t ++ fence)) = t ++ fence := by
    rw [replaceFirst_of_pre h2]; exact List.drop_left _ _
  have h4 : fence.isSuffixOf (t ++ fence) = true :=
    List.isSuffixOf_iff_suffix.mpr (List.suffix_append _ _)
  have hc : fenceCore (fence ++ (t ++ fence)) = t := by
    simp [fenceCore, h1, h2, h3, h4, rsplit_eat]
  rw [stripFences, hc, hs]

theorem strip_idem_of_clean {s : List Char}
    (h1 : fenceHtml.isPrefixOf (stripFences s) = false)
    (h2 : fence.isPrefixOf (stripFences s) = false)
    (h3 : fence.isSuffixOf (stripFences s) = false) :
    stripFences (stripFences s) = stripFences s := by
  have hc : fenceCore (stripFences s) = stripFences s := by
    simp [fenceCore, h1, h2, h3]
  calc stripFences (stripFences s)
      = pstrip (fenceCore (stripFences s)) := rfl
    _ = pstrip (stripFences s) := by rw [hc]
    _ = stripFences s := stripFences_pstrip s

/-! ### C2: fence stripping is idempotent and symmetric (corrected) -/

/-- C2, counterexample.  The claim as stated fails on the code: (i) the
identity case is false, since the final `strip()` changes a fence-free
text that carries surrounding whitespace (`" x "` becomes `"x"`); (ii)
stripping is not idempotent: one pass over `"``` <newline> ```html x```"`
leaves `"```html x"`, and a second pass strips it further to `"x"`. -/
theorem c2_counterexample :
    stripFences " x ".data ≠ " x ".data
    ∧ stripFences (stripFences "```\n```html x```".data)
        ≠ stripFences "```\n```html x```".data := by
  constructor
  · decide
  · decide

/-- C2, amended.  For every text `t` that contains no backtick and carries
no surrounding whitespace (`pstrip t = t`): stripping is the identity on
`t`; stripping recovers `t` from `"```html" ++ t ++ "```"`, and from
`"```" ++ t ++ "```"` provided `t` does not start with `"html"`; a second
pass over the `"```html"`-wrapped text changes nothing.  Scenario B holds
verbatim.  In general a second pass equals one pass whenever the first
pass's output does not itself start or end with a fence marker. -/
theorem c2_amended_fence_stripping :
    (∀ t : List Char, btick ∉ t → pstrip t = t →
        stripFences t = t
        ∧ stripFences (fenceHtml ++ (t ++ fence)) = t
        ∧ (htmlTag.isPrefixOf t = false → stripFences (fence ++ (t ++ fence)) = t)
        ∧ stripFences (stripFences (fenceHtml ++ (t ++ fence))) = t)
    ∧ stripFences "```html<p>Hi</p>```".data = "<p>Hi</p>".data
    ∧ (∀ s : List Char,
        fenceHtml.isPrefixOf (stripFences s) = false →
        fence.isPrefixOf (stripFences s) = false →
        fence.isSuffixOf (stripFences s) = false →
        stripFences (stripFences s) = stripFences s) := by
  refine ⟨?_, by decide, ?_⟩
  · intro t hb hs
    refine ⟨strip_id hb hs, strip_wrap_html hb hs, strip_wrap_plain hb hs, ?_⟩
    rw [strip_wrap_html hb hs, strip_id hb hs]
  · intro s h1 h2 h3
    exact strip_idem_of_clean h1 h2 h3

/-- C2, witness: the amended theorem applied to the concrete texts
`"<p>Hi</p>"` and `"ok"`. -/
theorem c2_witness :
    stripFences (fenceHtml ++ ("<p>Hi</p>".data ++ fence)) = "<p>Hi</p>".data
    ∧ stripFences (fence ++ ("ok".data ++ fence)) = "ok".data :=
  ⟨(c2_amended_fence_stripping.1 "<p>Hi</p>".data (by decide) (by decide)).2.1,
   (c2_amended_fence_stripping.1 "ok".data (by decide) (by decide)).2.2.1 (by decide)⟩

/-! ### C4: RSS failure policy (corrected) -/

theorem rssLoop_acc :
    ∀ (l : List (Except PyErr Feed)) (acc : List Article),
      rssLoop acc l = (acc ++ (rssLoop [] l).1, (rssLoop [] l).2) := by
  intro l
  induction l with
  | nil => intro acc; simp [rssLoop]
  | cons x rest ih =>
    intro acc
    cases x with
    | error e => simp [rssLoop]
    | ok f =>
      simp only [rssLoop, ih (acc ++ feedArticles f), ih (feedArticles f),
        List.nil_append, List.append_assoc]

/-- C4, counterexample.  With the first configured feed parsing to
`feedA`, the second raising, and the later feeds parsing to `feedB`, the
collector returns only `feedA`'s article: the failure of one feed does
prevent articles of feeds later in the list from being collected (the
`try` wraps the whole loop), although `feedB` on its own yields `artB`. -/
theorem c4_counterexample :
    (fetch_news_from_raw_rss cexRssOracle).1 = [artA]
    ∧ artB ∉ (fetch_news_from_raw_rss cexRssOracle).1
    ∧ feedArticles feedB = [artB] := by
  refine ⟨by decide, by decide, by decide⟩

/-- C4, amended.  A feed that parses but yields zero entries contributes
zero articles and does not prevent later feeds from being collected: with
all feeds parsing, the collector returns exactly the concatenation of the
per-feed contributions.  A feed that raises is caught and logged, and the
collector returns (rather than raising) the articles of the feeds before
it — but the feeds after it are skipped.  `fetch_news_from_raw_rss` is
this loop over the configured `RSS_FEEDS`. -/
theorem c4_amended_rss_failure_policy :
    (∀ fs : List Feed,
        (rssLoop [] (fs.map Except.ok)).1 = (fs.map feedArticles).flatten)
    ∧ (∀ (pre : List Feed) (e : PyErr) (rest : List (Except PyErr Feed)),
        rssLoop [] (pre.map Except.ok ++ (Except.error e :: rest))
          = ((pre.map feedArticles).flatten,
             pre.map (fun _ => LogEntry.info LogMsg.rssComplete)
               ++ [LogEntry.error (LogMsg.rssError e)]))
    ∧ (∀ oracle, fetch_news_from_raw_rss oracle = rssLoop [] (RSS_FEEDS.map oracle)) := by
  refine ⟨?_, ?_, fun _ => rfl⟩
  · intro fs
    induction fs with
    | nil => simp [rssLoop]
    | cons f rest ih =>
      rw [List.map_cons, List.map_cons, List.flatten_cons, ← ih]
      simp only [rssLoop, List.nil_append]
      rw [rssLoop_acc (rest.map Except.ok) (feedArticles f)]
  · intro pre e rest
    induction pre with
    | nil => simp [rssLoop]
    | cons f pre' ih =>
      rw [List.map_cons, List.cons_append]
      simp only [rssLoop, List.nil_append]
      rw [rssLoop_acc (pre'.map Except.ok ++ (Except.error e :: rest)) (feedArticles f), ih]
      simp [List.flatten_cons]

/-! ### C7: news-API non-success statuses (confirmed) -/

theorem apiLoop_acc :
    ∀ (l : List (Except PyErr ApiResponse)) (acc : List Article),
      apiLoop acc l = (acc ++ (apiLoop [] l).1, (apiLoop [] l).2) := by
  intro l
  induction l with
  | nil => intro acc; simp [apiLoop]
  | cons x rest ih =>
    intro acc
    cases x with
    | error e => simp [apiLoop]
    | ok r =>
      cases hs : apiSuccess r with
      | true =>
        simp only [apiLoop, hs, if_true, List.nil_append]
        rw [ih (acc ++ (r.results.getD []).map apiItemToArticle),
          ih ((r.results.getD []).map apiItemToArticle)]
        simp [List.append_assoc]
      | false =>
        simp only [apiLoop, hs]
        rw [ih acc]
        simp

theorem apiLoop_arts (resps : List ApiResponse) :
    (apiLoop [] (resps.map Except.ok)).1 = (resps.map apiContribution).flatten := by
  induction resps with
  | nil => simp [apiLoop]
  | cons r rest ih =>
    cases hs : apiSuccess r with
    | true =>
      rw [List.map_cons, List.map_cons, List.flatten_cons, ← ih]
      simp only [apiLoop, hs, if_true, List.nil_append, apiContribution]
      rw [apiLoop_acc (rest.map Except.ok) ((r.results.getD []).map apiItemToArticle)]
    | false =>
      rw [List.map_cons, List.map_cons, List.flatten_cons, ← ih]
      simp only [apiLoop, hs, apiContribution, List.nil_append]
      simp [hs]

theorem apiLoop_logs_mem :
    ∀ (resps : List ApiResponse) (r : ApiResponse), r ∈ resps → apiSuccess r = false →
      LogEntry.error (LogMsg.noResults r.status) ∈ (apiLoop [] (resps.map Except.ok)).2.1 := by
  intro resps
  induction resps with
  | nil => intro r hr; exact absurd hr (List.not_mem_nil r)
  | cons q rest ih =>
    intro r hr hfail
    rcases List.mem_cons.mp hr with rfl | hmem
    · simp only [List.map_cons, apiLoop, hfail]
      simp
    · cases hs : apiSuccess q with
      | true =>
        simp only [List.map_cons, apiLoop, hs, if_true, List.nil_append]
        rw [apiLoop_acc (rest.map Except.ok) ((q.results.getD []).map apiItemToArticle)]
        exact List.mem_cons_of_mem _ (ih r hmem hfail)
      | false =>
        simp only [List.map_cons, apiLoop, hs]
        exact List.mem_cons_of_mem _ (List.mem_append_right _ (ih r hmem hfail))

/-- C7.  Over any sequence of decoded responses: the articles collected
are exactly the concatenation of the per-query contributions (so one bad
query aborts nothing and the other queries' articles all appear); a
response whose status is not `"success"` or that lacks a `results` array
contributes zero articles; and every such response leaves an error-level
`No results` log record.  `fetch_news_from_news_api` wires this loop to
the two configured query URLs. -/
theorem c7_api_status :
    (∀ resps : List ApiResponse,
        (apiLoop [] (resps.map Except.ok)).1 = (resps.map apiContribution).flatten)
    ∧ (∀ r : ApiResponse, apiSuccess r = false → apiContribution r = [])
    ∧ (∀ (resps : List ApiResponse) (r : ApiResponse), r ∈ resps → apiSuccess r = false →
        LogEntry.error (LogMsg.noResults r.status) ∈ (apiLoop [] (resps.map Except.ok)).2.1)
    ∧ (∀ (key : List Char) (oracle : List Char → Except PyErr ApiResponse),
        (fetch_news_from_news_api (some key) oracle).1
          = (apiLoop [] ((newsLinks key).map oracle)).1) := by
  refine ⟨apiLoop_arts, ?_, apiLoop_logs_mem, fun _ _ => rfl⟩
  intro r h
  simp [apiContribution, h]

/-- C7, witness: a failing first query (`badResp`) next to a succeeding
one contributes nothing, leaves the log record, and does not block the
second query's article. -/
theorem c7_witness :
    (apiLoop [] ([badResp, goodResp].map Except.ok)).1 = [artX]
    ∧ apiContribution badResp = []
    ∧ LogEntry.error (LogMsg.noResults (some "error".data))
        ∈ (apiLoop [] ([badResp, goodResp].map Except.ok)).2.1 := by
  refine ⟨?_, c7_api_status.2.1 badResp (by decide), ?_⟩
  · rw [c7_api_status.1 [badResp, goodResp]]
    decide
  · exact c7_api_status.2.2.1 [badResp, goodResp] badResp (by decide) (by decide)

/-! ### C8: provider error handling (confirmed) -/

/-- C8.  For either provider, whenever the oracle reports that the HTTP
exchange raised (non-2xx status via `raise_for_status`, transport error,
missing credential, undecodable body — every `PyErr` case), the provider
returns `None` and leaves an error-level log record; both modelled
functions are total, mirroring the `except` blocks that stop any
exception at the provider boundary. -/
theorem c8_provider_errors (arts : List Article) (e : PyErr) :
    (generate_summary_with_claude arts (fun _ => Except.error e)).1 = none
    ∧ (∃ m, LogEntry.error m ∈ (generate_summary_with_claude arts (fun _ => Except.error e)).2)
    ∧ (generate_summary_with_huggingface arts (fun _ => Except.error e)).1 = none
    ∧ (∃ m, LogEntry.error m ∈ (generate_summary_with_huggingface arts (fun _ => Except.error e)).2) := by
  refine ⟨rfl, ⟨LogMsg.llmError e, by simp [generate_summary_with_claude]⟩, ?_, ?_⟩
  · cases e <;> rfl
  · cases e <;> exact ⟨_, List.mem_cons_self _ _⟩

/-! ### C9: send_email failure signalling (confirmed) -/

/-- C9.  For every subject and HTML body, `send_email` returns `True`
exactly when all three SMTP steps (`starttls`, `login`, `sendmail`)
succeed; any failing step — authentication included — yields the return
value `False` together with an error log carrying the failure's cause,
and the function is total (the `except` block stops every exception). -/
theorem c9_send_email (subject body : List Char) (o : SmtpOracle) :
    ((send_email subject (some body) o).1 = true
      ↔ o.starttls = Except.ok () ∧ o.login = Except.ok () ∧ o.send = Except.ok ())
    ∧ (∀ e : PyErr,
        (o.starttls = Except.error e
          ∨ (o.starttls = Except.ok () ∧ o.login = Except.error e)
          ∨ (o.starttls = Except.ok () ∧ o.login = Except.ok ()
              ∧ o.send = Except.error e)) →
        (send_email subject (some body) o).1 = false
          ∧ LogEntry.error (LogMsg.emailError e) ∈ (send_email subject (some body) o).2) := by
  obtain ⟨ts, lg, sd⟩ := o
  constructor
  · cases ts with
    | error e => simp [send_email]
    | ok u =>
      cases u
      cases lg with
      | error e => simp [send_email]
      | ok u2 =>
        cases u2
        cases sd with
        | error e => simp [send_email]
        | ok u3 => cases u3; simp [send_email]
  · intro e he
    rcases he with h1 | ⟨h1, h2⟩ | ⟨h1, h2, h3⟩
    · subst h1; simp [send_email]
    · subst h1; subst h2; simp [send_email]
    · subst h1; subst h2; subst h3; simp [send_email]

/-- C9, witness: an SMTP authentication failure makes `send_email` return
`False` and log the cause. -/
theorem c9_witness :
    (send_email "s".data (some "<p>b</p>".data)
        ⟨Except.ok (), Except.error PyErr.authError, Except.ok ()⟩).1 = false
    ∧ LogEntry.error (LogMsg.emailError PyErr.authError)
        ∈ (send_email "s".data (some "<p>b</p>".data)
            ⟨Except.ok (), Except.error PyErr.authError, Except.ok ()⟩).2 :=
  (c9_send_email "s".data "<p>b</p>".data
      ⟨Except.ok (), Except.error PyErr.authError, Except.ok ()⟩).2
    PyErr.authError (Or.inr (Or.inl ⟨rfl, rfl⟩))

/-! ### C1: fallback orchestration (confirmed) -/

/-- C1.  In every run: the news API is queried, then the free-tier
provider; the primary provider is invoked exactly when the free-tier
digest is absent/empty or contains the error indicator (the `needsFallback`
test of line 218); and whenever the free-tier digest is the empty string,
the primary provider's call sits between the free-tier call and the
`send_email` call in the trace. -/
theorem c1_fallback_orchestration (w : World) :
    (pymain w).trace
      = [Event.callNewsApi, Event.callHF]
        ++ ((if needsFallback (hfDigestOf w) then [Event.callClaude] else [])
        ++ [Event.callSendEmail])
    ∧ (hfDigestOf w = some [] →
        (pymain w).trace
          = [Event.callNewsApi, Event.callHF, Event.callClaude, Event.callSendEmail]) := by
  constructor
  · simp [pymain]
  · intro h
    simp [pymain, h, needsFallback]

/-- C1, witness: a free-tier response of `" ``` "` strips to the empty
digest, and the Claude call then precedes the delivery call. -/
theorem c1_witness :
    (pymain worldHfEmpty).trace
      = [Event.callNewsApi, Event.callHF, Event.callClaude, Event.callSendEmail] :=
  (c1_fallback_orchestration worldHfEmpty).2 (by decide)

/-! ### C10: the fallback trigger is a substring test (confirmed) -/

/-- C10.  The primary provider is invoked iff the free-tier digest is
absent, empty, or contains `"Error"` anywhere as a substring; in
particular a well-formed digest that merely mentions `"Error"` is
discarded and the delivered body is the primary provider's output, while
a digest failing the test is delivered as-is. -/
theorem c10_error_substring_fallback (w : World) :
    ((Event.callClaude ∈ (pymain w).trace) ↔ needsFallback (hfDigestOf w) = true)
    ∧ (∀ s : List Char, hfDigestOf w = some s → containsSub "Error".data s = true →
        (pymain w).emailBody = claudeDigestOf w)
    ∧ (needsFallback (hfDigestOf w) = false → (pymain w).emailBody = hfDigestOf w) := by
  cases hf : needsFallback (hfDigestOf w) with
  | true =>
    refine ⟨by simp [pymain, hf], fun s hs hc => by simp [pymain, hf], fun h => by simp at h⟩
  | false =>
    refine ⟨by simp [pymain, hf], fun s hs hc => ?_, fun h => by simp [pymain, hf]⟩
    rw [hs] at hf
    simp [needsFallback, hc] at hf

/-- C10, witness: the digest `"<p>Error rates fell</p>"` is non-empty and
merely mentions `Error`, yet the delivered body is the primary
provider's. -/
theorem c10_witness :
    (pymain worldHfError).emailBody = claudeDigestOf worldHfError :=
  (c10_error_substring_fallback worldHfError).2.1 "<p>Error rates fell</p>".data
    (by decide) (by decide)

/-! ### C5: which sources feed the summarizer (corrected) -/

/-- C5, counterexample.  In a world where the RSS collector would yield
`artA` and both API queries succeed with `artX`, the article sequence
handed to the summarizer is `[artX, artX]`: it does not include the RSS
article, and no RSS call appears in the trace — `main` never invokes
`fetch_news_from_raw_rss`. -/
theorem c5_counterexample :
    (pymain worldC5).articles = [artX, artX]
    ∧ (fetch_news_from_raw_rss worldC5.rssOracle).1 = [artA]
    ∧ artA ∉ (pymain worldC5).articles
    ∧ Event.callRss ∉ (pymain worldC5).trace := by
  refine ⟨by decide, by decide, by decide, by decide⟩

/-- C5, amended.  The articles passed to the summarizer are exactly those
returned by the news-API collector; the RSS collector exists in the file
but is never called by the orchestrator. -/
theorem c5_amended_sources (w : World) :
    (pymain w).articles = (fetch_news_from_news_api w.newsKey w.apiOracle).1
    ∧ Event.callRss ∉ (pymain w).trace := by
  refine ⟨rfl, ?_⟩
  cases hf : needsFallback (hfDigestOf w) <;> simp [pymain, hf]

/-! ### Prompt containment infrastructure -/

theorem containsSub_iff (p s : List Char) : containsSub p s = true ↔ p <:+: s := by
  induction s with
  | nil =>
    show p.isPrefixOf [] = true ↔ _
    rw [ List.isPrefixOf_iff_prefix]
    simp
  | cons c t ih =>
    show (p.isPrefixOf (c :: t) || containsSub p t) = true ↔ _
    rw [Bool.or_eq_true, List.isPrefixOf_iff_prefix, ih, List.infix_cons_iff]

theorem infix_contains {p s : List Char} (h : p <:+: s) : containsSub p s = true :=
  (containsSub_iff p s).mpr h

theorem sub_of_sub_suffix {p s t : List Char} (h1 : p <:+: s) (h2 : s <:+ t) :
    p <:+: t :=
  h1.trans ( List.IsSuffix.isInfix h2)

theorem sub_of_sub_pre {p s t : List Char} (h1 : p <:+: s) (h2 : s <+: t) :
    p <:+: t :=
  h1.trans ( List.IsPrefix.isInfix h2)

theorem mem_commaSep {x : List Char} :
    ∀ {l : List (List Char)}, x ∈ l → x <:+: commaSep l := by
  intro l
  induction l with
  | nil => intro h; exact absurd h (List.not_mem_nil x)
  | cons a rest ih =>
    intro h
    cases rest with
    | nil =>
      have hx : x = a := by simpa using h
      subst hx
      exact List.infix_rfl
    | cons b rest' =>
      rcases List.mem_cons.mp h with rfl | hmem
      · show x <:+: x ++ ", ".data ++ commaSep (b :: rest')
        exact List.IsPrefix.isInfix
          ((List.prefix_append x ", ".data).trans (List.prefix_append _ _))
      · show x <:+: a ++ ", ".data ++ commaSep (b :: rest')
        exact sub_of_sub_suffix (ih hmem) (List.suffix_append _ _)

theorem art_in_reprs {a : Article} {arts : List Article} (h : a ∈ arts) :
    pyReprArticle a <:+: pyReprArticles arts := by
  have h1 : pyReprArticle a <:+: commaSep (arts.map pyReprArticle) :=
    mem_commaSep (List.mem_map_of_mem _ h)
  exact h1.trans ⟨"[".data, "]".data, rfl⟩

theorem repr_in_claude (arts : List Article) :
    pyReprArticles arts <:+: claudePrompt arts :=
  ⟨promptPre, promptMid ++ (claudeLine3 ++ promptTail), by
    simp [claudePrompt, List.append_assoc]⟩

theorem repr_in_hf (arts : List Article) :
    pyReprArticles arts <:+: hfPrompt arts :=
  ⟨promptPre, promptMid ++ (hfLine3 ++ promptTail), by
    simp [hfPrompt, List.append_assoc]⟩

theorem tail_in_claude (arts : List Article) : promptTail <:+ claudePrompt arts :=
  ((List.suffix_append claudeLine3 promptTail).trans
    ((List.suffix_append promptMid _).trans
      ((List.suffix_append (pyReprArticles arts) _).trans
        (List.suffix_append promptPre _))))

theorem tail_in_hf (arts : List Article) : promptTail <:+ hfPrompt arts :=
  ((List.suffix_append hfLine3 promptTail).trans
    ((List.suffix_append promptMid _).trans
      ((List.suffix_append (pyReprArticles arts) _).trans
        (List.suffix_append promptPre _))))

theorem mid_in_claude (arts : List Article) : promptMid <:+: claudePrompt arts :=
  sub_of_sub_suffix
    ( List.IsPrefix.isInfix (List.prefix_append promptMid (claudeLine3 ++ promptTail)))
    ((List.suffix_append (pyReprArticles arts) _).trans (List.suffix_append promptPre _))

theorem mid_in_hf (arts : List Article) : promptMid <:+: hfPrompt arts :=
  sub_of_sub_suffix
    ( List.IsPrefix.isInfix (List.prefix_append promptMid (hfLine3 ++ promptTail)))
    ((List.suffix_append (pyReprArticles arts) _).trans (List.suffix_append promptPre _))

theorem line3_in_claude (arts : List Article) : claudeLine3 <:+: claudePrompt arts :=
  sub_of_sub_suffix
    ( List.IsPrefix.isInfix (List.prefix_append claudeLine3 promptTail))
    ((List.suffix_append promptMid _).trans
      ((List.suffix_append (pyReprArticles arts) _).trans
        (List.suffix_append promptPre _)))

theorem line3_in_hf (arts : List Article) : hfLine3 <:+: hfPrompt arts :=
  sub_of_sub_suffix
    ( List.IsPrefix.isInfix (List.prefix_append hfLine3 promptTail))
    ((List.suffix_append promptMid _).trans
      ((List.suffix_append (pyReprArticles arts) _).trans
        (List.suffix_append promptPre _)))

/-! ### C3: shared provider contract (corrected) -/

/-- C3, counterexample.  The two prompt texts differ (instruction 3 caps
15 stories and 4 themes for Claude, 10 stories for Hugging Face), and the
post-processors differ: on the raw response `""` the Hugging Face side
returns `None` while the Claude side returns `""`. -/
theorem c3_counterexample :
    claudePrompt [] ≠ hfPrompt [] ∧ hfPost [] ≠ some (claudePost []) := by
  constructor
  · decide
  · decide

/-- C3, amended.  For every article list the two prompts decompose over a
common prefix (the shared header with the interpolated article list and
instructions 1-2) and a common suffix (instructions 4-5 and the word
ceiling), differing exactly in the instruction-3 line; and the two
post-processors agree on every raw response whose single-pass stripped
text is non-empty and is itself a fixed point of stripping. -/
theorem c3_amended_provider_contract :
    (∀ arts : List Article, ∃ u v : List Char,
        claudePrompt arts = u ++ (claudeLine3 ++ v)
        ∧ hfPrompt arts = u ++ (hfLine3 ++ v))
    ∧ claudeLine3 ≠ hfLine3
    ∧ (∀ raw : List Char, stripFences raw ≠ [] →
        stripFences (stripFences raw) = stripFences raw →
        hfPost raw = some (claudePost raw)) := by
  refine ⟨?_, by decide, ?_⟩
  · intro arts
    refine ⟨promptPre ++ (pyReprArticles arts ++ promptMid), promptTail, ?_, ?_⟩
    · simp [claudePrompt, List.append_assoc]
    · simp [hfPrompt, List.append_assoc]
  · intro raw h1 h2
    unfold hfPost claudePost
    rw [if_neg h1, h2]

/-- C3, witness: on the raw response `"<p>x</p>"` both post-processors
produce the digest `"<p>x</p>"`. -/
theorem c3_witness :
    hfPost "<p>x</p>".data = some (claudePost "<p>x</p>".data) :=
  c3_amended_provider_contract.2.2 "<p>x</p>".data (by decide) (by decide)

/-! ### C6: prompt contents (corrected) -/

/-- C6, counterexample.  The Hugging Face prompt contains no theme-count
cap: the only theme-cap text of the program, `"Make no more than 4
themes"`, does not occur in it (its instruction 3 stops at the 10-story
cap), so the claim's list of formatting requirements does not hold for
both summarizers. -/
theorem c6_counterexample :
    containsSub "Make no more than 4 themes".data (hfPrompt []) = false := by
  decide

/-- C6, amended.  Each prompt embeds the Python rendering of every article
of the list — title, source name, description, url and published date all
appear, since the f-string interpolates the article dicts — together with
the shared formatting requirements (no intro/outro, emoji-free title,
2-4 sentence summaries with link, professional tone, 500-word ceiling);
the story-count cap is 15 for the primary prompt and 10 for the free-tier
prompt, and only the primary prompt carries the theme-count cap. -/
theorem c6_amended_prompt_contents (arts : List Article) :
    (∀ a ∈ arts,
        containsSub (pyReprArticle a) (claudePrompt arts) = true
        ∧ containsSub (pyReprArticle a) (hfPrompt arts) = true)
    ∧ (∀ p ∈ ["1. No introduction or conclusion.".data,
          "2. Keep the title emoji free".data,
          "4. Make sure that politics and markets are discussed.".data,
          "4. For each story: headline, 2-4 sentence summary, link".data,
          "5. Professional but friendly tone".data,
          "Keep under 500 words.".data],
        containsSub p (claudePrompt arts) = true
        ∧ containsSub p (hfPrompt arts) = true)
    ∧ containsSub "Make no more than 4 themes".data (claudePrompt arts) = true
    ∧ containsSub "Pick at most 15 key stories".data (claudePrompt arts) = true
    ∧ containsSub "Pick at most 10 key stories".data (hfPrompt arts) = true := by
  refine ⟨?_, ?_, ?_, ?_, ?_⟩
  · intro a ha
    exact ⟨infix_contains ((art_in_reprs ha).trans (repr_in_claude arts)),
      infix_contains ((art_in_reprs ha).trans (repr_in_hf arts))⟩
  · intro p hp
    have hmid : ∀ q : List Char, containsSub q promptMid = true →
        containsSub q (claudePrompt arts) = true
          ∧ containsSub q (hfPrompt arts) = true := by
      intro q hq
      exact ⟨infix_contains (((containsSub_iff q promptMid).mp hq).trans (mid_in_claude arts)),
        infix_contains (((containsSub_iff q promptMid).mp hq).trans (mid_in_hf arts))⟩
    have htail : ∀ q : List Char, containsSub q promptTail = true →
        containsSub q (claudePrompt arts) = true
          ∧ containsSub q (hfPrompt arts) = true := by
      intro q hq
      exact ⟨infix_contains (sub_of_sub_suffix
          ((containsSub_iff q promptTail).mp hq) (tail_in_claude arts)),
        infix_contains (sub_of_sub_suffix
          ((containsSub_iff q promptTail).mp hq) (tail_in_hf arts))⟩
    simp only [List.mem_cons, List.not_mem_nil, or_false] at hp
    rcases hp with rfl | rfl | rfl | rfl | rfl | rfl
    · exact hmid _ (by decide)
    · exact hmid _ (by decide)
    · exact htail _ (by decide)
    · exact htail _ (by decide)
    · exact htail _ (by decide)
    · exact htail _ (by decide)
  · exact infix_contains (((containsSub_iff _ claudeLine3).mp (by decide)).trans
      (line3_in_claude arts))
  · exact infix_contains (((containsSub_iff _ claudeLine3).mp (by decide)).trans
      (line3_in_claude arts))
  · exact infix_contains (((containsSub_iff _ hfLine3).mp (by decide)).trans
      (line3_in_hf arts))

/-- C6, witness: with the single article `artX`, its rendering and the
word ceiling both occur in the prompts. -/
theorem c6_witness :
    containsSub (pyReprArticle artX) (claudePrompt [artX]) = true
    ∧ containsSub "Keep under 500 words.".data (hfPrompt [artX]) = true :=
  ⟨((c6_amended_prompt_contents [artX]).1 artX (by decide)).1,
   ((c6_amended_prompt_contents [artX]).2.1 "Keep under 500 words.".data (by decide)).2⟩
